import Mathlib

/-!
Verification of the SwSwitch control-plane core (fboss/agent/SwSwitch.h).

The repository provides the class declaration `SwSwitch` with its data
members and documentation; the method bodies live in SwSwitch.cpp, which is
not part of the sources.  Definitions below that embed such a missing body
are marked `Modelled from the spec:` and follow the specification's words
(sections 4.2-4.5, 5, 7) together with the header's own doc comments.
Inline bodies present in the header (getState, portStats overload, the
bootType_ initializer, getBootType) are embedded directly from the source.
-/

namespace FbossSw

/-- The `StateUpdateFn` type from SwSwitch.h: a transform takes the current
SwitchState and returns the new state, or `none` when no update is needed. -/
abbrev StateUpdateFn (S : Type) := S → Option S

/-- Applying one transform to a snapshot: a `none` result means no change,
so the snapshot is kept as is. -/
def applyUpdateFn {S : Type} (f : StateUpdateFn S) (s : S) : S :=
  match f s with
  | some s2 => s2
  | none => s

/-- Modelled from the spec: the update thread folds pending transforms in
enqueue order over the current snapshot (SwSwitch.cpp handlePendingUpdates
is not in the sources).  Returns the list of snapshots each transform was
invoked on, together with the final snapshot. -/
def runUpdatesT {S : Type} (fs : List (StateUpdateFn S)) (s : S) : List S × S :=
  match fs with
  | [] => ([], s)
  | f :: rest =>
    let r := runUpdatesT rest (applyUpdateFn f s)
    (s :: r.1, r.2)

/-- Modelled from the spec: the update thread may batch pending updates; a
scheduling is a list of batch sizes.  Each pass takes the next batch from
the front of the queue, folds it over the current snapshot, and publishes
the result before the next pass. -/
def processBatchesT {S : Type} (batches : List Nat) (queue : List (StateUpdateFn S))
    (s : S) : List S × S :=
  match batches with
  | [] => ([], s)
  | k :: rest =>
    let first := runUpdatesT (queue.take k) s
    let r := processBatchesT rest (queue.drop k) first.2
    (first.1 ++ r.1, r.2)

theorem runUpdatesT_append {S : Type} (xs ys : List (StateUpdateFn S)) (s : S) :
    runUpdatesT (xs ++ ys) s =
      ((runUpdatesT xs s).1 ++ (runUpdatesT ys (runUpdatesT xs s).2).1,
        (runUpdatesT ys (runUpdatesT xs s).2).2) := by
  induction xs generalizing s with
  | nil => simp [runUpdatesT]
  | cons f rest ih =>
    simp [runUpdatesT, ih]

/-- C1: for every sequence of enqueued updates and every batching schedule
that drains the queue, the final published snapshot equals the fold of all
transforms in enqueue order over the initial snapshot, and every transform
is invoked on exactly the state produced by its predecessors (the traces of
observed input states coincide). -/
theorem updateScheduler_fold_order {S : Type} (batches : List Nat)
    (queue : List (StateUpdateFn S)) (s : S)
    (hdrain : queue.length ≤ batches.sum) :
    processBatchesT batches queue s = runUpdatesT queue s := by
  induction batches generalizing queue s with
  | nil =>
    have hq : queue = [] := by
      have : queue.length = 0 := by simpa using hdrain
      exact List.eq_nil_of_length_eq_zero this
    subst hq
    simp [processBatchesT, runUpdatesT]
  | cons k rest ih =>
    have hlen : (queue.drop k).length ≤ rest.sum := by
      simp only [List.length_drop]
      have := hdrain
      simp only [List.sum_cons] at this
      omega
    have hsplit := runUpdatesT_append (queue.take k) (queue.drop k) s
    rw [List.take_append_drop] at hsplit
    simp only [processBatchesT, ih _ _ hlen, hsplit]

def exampleUpdates : List (StateUpdateFn Nat) :=
  [fun n => some (n + 1), fun _ => none, fun n => some (n * 2)]

theorem updateScheduler_fold_order_witness :
    exampleUpdates.length ≤ ([1, 2] : List Nat).sum ∧
      processBatchesT [1, 2] exampleUpdates 0 = runUpdatesT exampleUpdates 0 :=
  ⟨by decide, updateScheduler_fold_order [1, 2] exampleUpdates 0 (by decide)⟩

/-! ## Run state machine -/

/-- The ordered set of run states from SwSwitch.h: "SwSwitch can only move
forward from a lower numbered state to the next". -/
inductive SwitchRunState : Type
  | UNINITIALIZED
  | INITIALIZED
  | CONFIGURED
  | FIB_SYNCED
  | EXITING
deriving DecidableEq, Repr, Fintype

/-- The underlying `int` value of each enumerator, in declaration order. -/
def SwitchRunState.toNat : SwitchRunState → Nat
  | .UNINITIALIZED => 0
  | .INITIALIZED => 1
  | .CONFIGURED => 2
  | .FIB_SYNCED => 3
  | .EXITING => 4

/-- Modelled from the spec: SwSwitch.cpp setSwitchRunState is not in the
sources; per section 4.3, setting a desired state that is not strictly
above the current one is a no-op, otherwise the state advances. -/
def setSwitchRunState (desired current : SwitchRunState) : SwitchRunState :=
  if desired.toNat ≤ current.toNat then current else desired

theorem setSwitchRunState_le (d c : SwitchRunState) :
    c.toNat ≤ (setSwitchRunState d c).toNat := by
  unfold setSwitchRunState
  split
  · exact Nat.le_refl _
  · omega

/-- C2: the run state is monotonic.  Setting a desired state at or below
the current one leaves the state unchanged; a single transition never moves
backward; any sequence of transitions never moves backward; EXITING is
reachable from every state in one step; and EXITING is terminal. -/
theorem switchRunState_monotonic :
    (∀ d c : SwitchRunState, d.toNat ≤ c.toNat → setSwitchRunState d c = c) ∧
    (∀ d c : SwitchRunState, c.toNat ≤ (setSwitchRunState d c).toNat) ∧
    (∀ (ds : List SwitchRunState) (c : SwitchRunState),
      c.toNat ≤ (ds.foldl (fun s d => setSwitchRunState d s) c).toNat) ∧
    (∀ c : SwitchRunState, setSwitchRunState .EXITING c = .EXITING) ∧
    (∀ d : SwitchRunState, setSwitchRunState d .EXITING = .EXITING) := by
  refine ⟨by decide, by decide, ?_, by decide, by decide⟩
  intro ds
  induction ds with
  | nil => intro c; exact Nat.le_refl _
  | cons d rest ih =>
    intro c
    exact Nat.le_trans (setSwitchRunState_le d c) (ih (setSwitchRunState d c))

theorem switchRunState_monotonic_witness :
    SwitchRunState.CONFIGURED.toNat ≤ SwitchRunState.CONFIGURED.toNat ∧
      setSwitchRunState .CONFIGURED .CONFIGURED = .CONFIGURED :=
  ⟨by decide, switchRunState_monotonic.1 .CONFIGURED .CONFIGURED (by decide)⟩

/-! ## Blocking updates -/

/-- The state-holding part of SwSwitch: the current snapshot pointer
`stateDontUseDirectly_`, read through getState(). -/
structure SwSys (S : Type) where
  stateDontUseDirectly_ : S

/-- getState from SwSwitch.h: returns the current snapshot (the lock is
only around copying the reference, which the functional model elides). -/
def getState {S : Type} (sw : SwSys S) : S :=
  sw.stateDontUseDirectly_

/-- setStateInternal from SwSwitch.h: replace the current snapshot. -/
def setStateInternal {S : Type} (s : S) (sw : SwSys S) : SwSys S :=
  { sw with stateDontUseDirectly_ := s }

/-- Modelled from the spec: SwSwitch.cpp updateStateBlocking is not in the
sources; per the header note it applies the update in the calling thread:
it reads the current state, runs the transform, commits the result to
hardware and installs it before returning, propagating a commit failure. -/
def updateStateBlocking {S : Type} (commitOk : S → Bool) (fn : StateUpdateFn S)
    (sw : SwSys S) : Except String (SwSys S) :=
  match fn (getState sw) with
  | none => Except.ok sw
  | some newState =>
    if commitOk newState then Except.ok (setStateInternal newState sw)
    else Except.error "commit failed"

/-- C3: when updateStateBlocking returns normally, getState() already
reflects the submitted transform; and when the commit step fails, the
failure is propagated to the caller instead of a normal return. -/
theorem updateStateBlocking_visible {S : Type} (commitOk : S → Bool)
    (fn : StateUpdateFn S) (sw : SwSys S) :
    (∀ sw2, updateStateBlocking commitOk fn sw = Except.ok sw2 →
      getState sw2 = applyUpdateFn fn (getState sw)) ∧
    (∀ ns, fn (getState sw) = some ns → commitOk ns = false →
      updateStateBlocking commitOk fn sw = Except.error "commit failed") := by
  constructor
  · intro sw2 h
    unfold updateStateBlocking at h
    unfold applyUpdateFn
    cases hfn : fn (getState sw) with
    | none =>
      rw [hfn] at h
      cases h
      rfl
    | some ns =>
      rw [hfn] at h
      cases hc : commitOk ns with
      | true =>
        simp [hc] at h
        rw [← h]
        rfl
      | false =>
        simp [hc] at h
  · intro ns hfn hc
    unfold updateStateBlocking
    rw [hfn]
    simp [hc]

def exampleBlockingFn : StateUpdateFn Nat := fun n => some (n + 1)

theorem updateStateBlocking_visible_witness :
    getState (SwSys.mk 6) = applyUpdateFn exampleBlockingFn (getState (SwSys.mk 5)) :=
  (updateStateBlocking_visible (fun _ => true) exampleBlockingFn (SwSys.mk 5)).1
    (SwSys.mk 6) rfl

/-! ## Packet buffers and the outbound L3 path -/

/-- A folly IOBuf as the packet path uses it: a buffer of `capacity` bytes
with `headroom` reserved bytes before the data and `dataLen` bytes of data
(the buffer's length()).  The tailroom is what remains after both. -/
structure IOBuf where
  capacity : Nat
  headroom : Nat
  dataLen : Nat
deriving DecidableEq, Repr

/-- Bytes available after the data region. -/
def IOBuf.tailroom (b : IOBuf) : Nat :=
  b.capacity - b.headroom - b.dataLen

/-- The caller writes `k` bytes of L3 payload starting at writableTail(). -/
def IOBuf.writePayload (b : IOBuf) (k : Nat) : IOBuf :=
  { b with dataLen := b.dataLen + k }

/-- Modelled from the spec: EthHdr (fboss/agent/packet/EthHdr.h) is not in
the sources; the L2 header is destination MAC, source MAC, VLAN tag and
ether type — 18 bytes.  The theorems below depend only on the relations
between the constants, not on this value. -/
def EthHdr_SIZE : Nat := 18

/-- The minimum legal frame size, 68 bytes, from the sendL3Packet doc
comment in SwSwitch.h ("a minimum size of packet (68)"). -/
def minPacketSize : Nat := 68

/-- Modelled from the spec: SwSwitch.cpp allocateL3TxPacket is not in the
sources; per the header doc comment it adds the L2 header size to the
requested L3 length, rounds the allocation up to the minimum packet size,
and reserves headroom for the L2 header so the caller writes L3 contents
from writableTail(). -/
def allocateL3TxPacket (l3Len : Nat) : IOBuf :=
  { capacity := max (EthHdr_SIZE + l3Len) minPacketSize
  , headroom := EthHdr_SIZE
  , dataLen := 0 }

/-- Outcome of a send entry point: the frame handed to the hardware, if
any, and the number of error-counter increments. -/
structure SendResult where
  transmitted : Option IOBuf
  pktTxErrorCount : Nat
deriving DecidableEq, Repr

/-- Modelled from the spec: the fallible core of SwSwitch.cpp sendL3Packet
(not in the sources).  Per the header doc comment the buffer must have
EthHdr::SIZE bytes of headroom for the L2 header and room for a minimum
size packet; the L2 header is prepended and the frame padded up to the
minimum legal frame size before transmission. -/
def sendL3PacketImpl (b : IOBuf) : Except String IOBuf :=
  if b.headroom < EthHdr_SIZE then
    Except.error "not enough headroom for the L2 header"
  else if b.capacity < minPacketSize then
    Except.error "buffer cannot hold a minimum size packet"
  else
    let withL2 : IOBuf :=
      { capacity := b.capacity
      , headroom := b.headroom - EthHdr_SIZE
      , dataLen := b.dataLen + EthHdr_SIZE }
    Except.ok (if withL2.dataLen < minPacketSize then
      { withL2 with dataLen := minPacketSize } else withL2)

/-- Modelled from the spec: SwSwitch.cpp sendL3Packet is declared noexcept;
a frame that violates the allocator's precondition is dropped and counted
rather than sent malformed, and no error escapes the call. -/
def sendL3Packet (b : IOBuf) : SendResult :=
  match sendL3PacketImpl b with
  | Except.ok f => { transmitted := some f, pktTxErrorCount := 0 }
  | Except.error _ => { transmitted := none, pktTxErrorCount := 1 }

/-- C4: a buffer from allocateL3TxPacket(l3Len) has headroom of at least
the L2 header size and usable payload capacity of at least l3Len bytes,
and once the caller has written its payload (at most l3Len bytes) and the
L2 header is prepended by sendL3Packet, the transmitted frame's total
length is at least the minimum legal frame size. -/
theorem allocateL3TxPacket_spec (l3Len k : Nat) (hk : k ≤ l3Len) :
    EthHdr_SIZE ≤ (allocateL3TxPacket l3Len).headroom ∧
    l3Len ≤ (allocateL3TxPacket l3Len).tailroom ∧
    ∃ f, (sendL3Packet ((allocateL3TxPacket l3Len).writePayload k)).transmitted
        = some f ∧ minPacketSize ≤ f.dataLen := by
  refine ⟨Nat.le_refl _, ?_, ?_⟩
  · show l3Len ≤ max (EthHdr_SIZE + l3Len) minPacketSize - EthHdr_SIZE - 0
    have h1 : EthHdr_SIZE + l3Len ≤ max (EthHdr_SIZE + l3Len) minPacketSize :=
      Nat.le_max_left _ _
    omega
  · have hcap : minPacketSize ≤ max (EthHdr_SIZE + l3Len) minPacketSize :=
      Nat.le_max_right _ _
    unfold sendL3Packet sendL3PacketImpl allocateL3TxPacket IOBuf.writePayload
    simp only
    rw [if_neg (by simp [EthHdr_SIZE]), if_neg (by omega)]
    by_cases hpad : 0 + k + EthHdr_SIZE < minPacketSize
    · rw [if_pos hpad]
      exact ⟨_, rfl, Nat.le_refl _⟩
    · rw [if_neg hpad]
      refine ⟨_, rfl, ?_⟩
      show minPacketSize ≤ 0 + k + EthHdr_SIZE
      omega

theorem allocateL3TxPacket_spec_witness :
    (10 : Nat) ≤ 10 ∧
      (EthHdr_SIZE ≤ (allocateL3TxPacket 10).headroom ∧
        10 ≤ (allocateL3TxPacket 10).tailroom ∧
        ∃ f, (sendL3Packet ((allocateL3TxPacket 10).writePayload 10)).transmitted
            = some f ∧ minPacketSize ≤ f.dataLen) :=
  ⟨by decide, allocateL3TxPacket_spec 10 10 (by decide)⟩

/-- C5: a packet whose buffer violates the precondition established by
allocateL3TxPacket — too little headroom for the L2 header, or a buffer
too small for a minimum size frame — is dropped and counted by
sendL3Packet: nothing is transmitted, the error counter is incremented
once, and the call returns a result rather than raising. -/
theorem sendL3Packet_drop_on_bad_headroom (b : IOBuf)
    (h : b.headroom < EthHdr_SIZE ∨ b.capacity < minPacketSize) :
    (sendL3Packet b).transmitted = none ∧
      (sendL3Packet b).pktTxErrorCount = 1 := by
  unfold sendL3Packet sendL3PacketImpl
  rcases h with h1 | h2
  · rw [if_pos h1]
    exact ⟨rfl, rfl⟩
  · by_cases h1 : b.headroom < EthHdr_SIZE
    · rw [if_pos h1]
      exact ⟨rfl, rfl⟩
    · rw [if_neg h1, if_pos h2]
      exact ⟨rfl, rfl⟩

theorem sendL3Packet_drop_on_bad_headroom_witness :
    ((IOBuf.mk 100 0 40).headroom < EthHdr_SIZE ∨
        (IOBuf.mk 100 0 40).capacity < minPacketSize) ∧
      ((sendL3Packet (IOBuf.mk 100 0 40)).transmitted = none ∧
        (sendL3Packet (IOBuf.mk 100 0 40)).pktTxErrorCount = 1) :=
  ⟨by decide, sendL3Packet_drop_on_bad_headroom (IOBuf.mk 100 0 40) (by decide)⟩

/-! ## Frame dispatch entry points (noexcept boundary) -/

/-- An inbound frame as the dispatch path sees it: ingress port, ingress
VLAN and ether type. -/
structure RxPkt where
  srcPort : Nat
  vlan : Nat
  etherType : Nat
deriving DecidableEq, Repr

/-- Result of a dispatch entry point: the action taken, if any, and the
number of drop-counter increments.  The entry points below are total into
this type: every recoverable condition ends in a counted drop. -/
structure EntryResult (α : Type) where
  action : Option α
  drops : Nat
deriving DecidableEq, Repr

/-- Modelled from the spec: classification of an inbound frame by ingress
VLAN; a frame tagged with a VLAN the switch state does not know fails
classification. -/
def classifyPacket (knownVlans : List Nat) (pkt : RxPkt) : Except String Nat :=
  if pkt.vlan ∈ knownVlans then Except.ok pkt.etherType
  else Except.error "unknown ingress vlan"

/-- Modelled from the spec: SwSwitch.cpp packetReceived (declared noexcept
in the header) is not in the sources; frames arriving before the switch is
configured are dropped and counted, classification failures are dropped
and counted, and classified frames are routed to a handler. -/
def packetReceived (rs : SwitchRunState) (knownVlans : List Nat)
    (pkt : RxPkt) : EntryResult Nat :=
  if rs.toNat < SwitchRunState.CONFIGURED.toNat then
    { action := none, drops := 1 }
  else
    match classifyPacket knownVlans pkt with
    | Except.ok handler => { action := some handler, drops := 0 }
    | Except.error _ => { action := none, drops := 1 }

/-- Modelled from the spec: SwSwitch.cpp linkStateChanged (declared
noexcept in the header) pushes a state update through the update scheduler
rather than mutating the snapshot; it always succeeds in enqueueing. -/
def linkStateChanged (port : Nat) (up : Bool) : EntryResult (Nat × Bool) :=
  { action := some (port, up), drops := 0 }

/-- The only outcome of a fatal hardware error: orderly termination. -/
inductive ExitAction : Type
  | terminated
deriving DecidableEq, Repr

/-- Modelled from the spec: SwSwitch.cpp exitFatal (declared noexcept
const in the header) attempts best-effort state persistence and then
terminates, whether or not the persistence step succeeded — never a
return to normal operation and never an escaping exception. -/
def exitFatal (persistResult : Except String Unit) : ExitAction :=
  match persistResult with
  | Except.ok _ => ExitAction.terminated
  | Except.error _ => ExitAction.terminated

/-- Modelled from the spec: SwSwitch.cpp sendPacketOutOfPort (declared
noexcept in the header); a hardware send failure is resolved locally by
drop-and-count. -/
def sendPacketOutOfPort (hwResult : Except String Unit) (pkt : IOBuf)
    (port : Nat) : EntryResult (IOBuf × Nat) :=
  match hwResult with
  | Except.ok _ => { action := some (pkt, port), drops := 0 }
  | Except.error _ => { action := none, drops := 1 }

/-- Modelled from the spec: SwSwitch.cpp sendPacketSwitched (declared
noexcept in the header) looks up the egress ports for the frame's VLAN in
the current snapshot's forwarding tables; a failed lookup is resolved
locally by drop-and-count. -/
def sendPacketSwitched (vlanPorts : List (Nat × List Nat)) (vlan : Nat)
    (pkt : IOBuf) : EntryResult (IOBuf × List Nat) :=
  match vlanPorts.lookup vlan with
  | some ports => { action := some (pkt, ports), drops := 0 }
  | none => { action := none, drops := 1 }

/-- C7: every frame-dispatch entry point is total and resolves every
recoverable condition by drop-and-count: for every input, packetReceived,
linkStateChanged, sendPacketOutOfPort, sendPacketSwitched and sendL3Packet
either take their action or increment a drop counter (never neither, so no
bad frame interrupts later dispatch), and exitFatal always reaches orderly
termination even when persistence fails. -/
theorem dispatch_total_noexcept :
    (∀ (rs : SwitchRunState) (kv : List Nat) (pkt : RxPkt),
      (packetReceived rs kv pkt).action.isSome = true ∨
        1 ≤ (packetReceived rs kv pkt).drops) ∧
    (∀ (port : Nat) (up : Bool),
      (linkStateChanged port up).action.isSome = true) ∧
    (∀ persistResult, exitFatal persistResult = ExitAction.terminated) ∧
    (∀ (hwResult : Except String Unit) (pkt : IOBuf) (port : Nat),
      (sendPacketOutOfPort hwResult pkt port).action.isSome = true ∨
        1 ≤ (sendPacketOutOfPort hwResult pkt port).drops) ∧
    (∀ (vlanPorts : List (Nat × List Nat)) (vlan : Nat) (pkt : IOBuf),
      (sendPacketSwitched vlanPorts vlan pkt).action.isSome = true ∨
        1 ≤ (sendPacketSwitched vlanPorts vlan pkt).drops) ∧
    (∀ b : IOBuf,
      (sendL3Packet b).transmitted.isSome = true ∨
        1 ≤ (sendL3Packet b).pktTxErrorCount) := by
  refine ⟨?_, ?_, ?_, ?_, ?_, ?_⟩
  · intro rs kv pkt
    unfold packetReceived
    split
    · exact Or.inr (Nat.le_refl _)
    · cases classifyPacket kv pkt with
      | ok h => exact Or.inl rfl
      | error e => exact Or.inr (Nat.le_refl _)
  · intro port up
    rfl
  · intro persistResult
    cases persistResult with
    | ok u => rfl
    | error e => rfl
  · intro hwResult pkt port
    cases hwResult with
    | ok u => exact Or.inl rfl
    | error e => exact Or.inr (Nat.le_refl _)
  · intro vlanPorts vlan pkt
    unfold sendPacketSwitched
    cases vlanPorts.lookup vlan with
    | some ports => exact Or.inl rfl
    | none => exact Or.inr (Nat.le_refl _)
  · intro b
    unfold sendL3Packet
    cases sendL3PacketImpl b with
    | ok f => exact Or.inl rfl
    | error e => exact Or.inr (Nat.le_refl _)

/-! ## The state store over time -/

/-- The state-store part of SwSwitch over its lifetime: the current
snapshot pointer `stateDontUseDirectly_` (null before init() installs the
first snapshot, hence the Option) together with the history of every
snapshot ever published.  Readers hold references into `published`; the
shallow embedding records a snapshot's immutability as the history being
append-only. -/
structure SwStateCore (S : Type) where
  state_ : Option S
  published : List S

/-- getState from SwSwitch.h: return the current snapshot pointer (null
only before the first install). -/
def coreGetState {S : Type} (c : SwStateCore S) : Option S :=
  c.state_

/-- Modelled from the spec: the writes to stateDontUseDirectly_ (in
SwSwitch.cpp, not in the sources).  init() installs the first snapshot
into the null store; setStateInternal replaces the pointer with a newly
built snapshot — it never mutates an already published one, so each write
appends to the history. -/
inductive CoreStep {S : Type} : SwStateCore S → SwStateCore S → Prop
  | initStep (c : SwStateCore S) (s0 : S) : c.state_ = none →
      CoreStep c ⟨some s0, c.published ++ [s0]⟩
  | setStateInternalStep (c : SwStateCore S) (s : S) : c.state_.isSome = true →
      CoreStep c ⟨some s, c.published ++ [s]⟩

/-- C6: once init() has installed a snapshot, getState() never again
returns null in any reachable later configuration, and the history of
published snapshots only grows — a snapshot reference a reader already
holds keeps denoting the same unmutated snapshot while newer snapshots
are installed. -/
theorem getState_nonnull_and_snapshots_persist {S : Type} (c c2 : SwStateCore S)
    (hreach : Relation.ReflTransGen CoreStep c c2)
    (hinit : (coreGetState c).isSome = true) :
    (coreGetState c2).isSome = true ∧ ∃ t, c2.published = c.published ++ t := by
  induction hreach with
  | refl => exact ⟨hinit, [], by simp⟩
  | tail hab hbc ih =>
    cases hbc with
    | initStep s0 hnone =>
      rw [coreGetState, hnone] at ih
      simp at ih
    | setStateInternalStep s hsome =>
      obtain ⟨hb, t, ht⟩ := ih
      exact ⟨rfl, t ++ [s], by simp [ht]⟩

theorem getState_nonnull_and_snapshots_persist_witness :
    (coreGetState (SwStateCore.mk (some 5) [0, 5])).isSome = true ∧
      ∃ t, (SwStateCore.mk (some 5) [0, 5] : SwStateCore Nat).published =
        (SwStateCore.mk (some 0) [0] : SwStateCore Nat).published ++ t :=
  getState_nonnull_and_snapshots_persist (SwStateCore.mk (some 0) [0])
    (SwStateCore.mk (some 5) [0, 5])
    (Relation.ReflTransGen.tail Relation.ReflTransGen.refl
      (CoreStep.setStateInternalStep (SwStateCore.mk (some 0) [0]) 5 rfl))
    rfl

/-! ## The hardware gate -/

/-- The hardware gate: who currently holds hwMutex_, and which threads
have a mutating hardware call in flight. -/
structure HwGate where
  holder : Option Nat
  inCall : List Nat
deriving DecidableEq, Repr

/-- The gate at startup: the mutex is free and no call is in flight. -/
def hwGateInit : HwGate :=
  { holder := none, inCall := [] }

/-- Modelled from the spec: the locking discipline of SwSwitch.cpp (not in
the sources) around hwMutex_ — "hwMutex_ is held around all modifying
calls that we make to hw_".  A thread may lock the free mutex, may start a
mutating hardware call only while it holds the mutex, ends calls it has in
flight, and unlocks only once its call is finished. -/
inductive GStep : HwGate → HwGate → Prop
  | lock (g : HwGate) (t : Nat) : g.holder = none →
      GStep g { holder := some t, inCall := g.inCall }
  | unlock (g : HwGate) (t : Nat) : g.holder = some t → g.inCall = [] →
      GStep g { holder := none, inCall := [] }
  | hwCallStart (g : HwGate) (t : Nat) : g.holder = some t →
      GStep g { holder := g.holder, inCall := t :: g.inCall }
  | hwCallEnd (g : HwGate) (t : Nat) : t ∈ g.inCall →
      GStep g { holder := g.holder, inCall := g.inCall.erase t }

theorem hwGate_inCall_held (g : HwGate)
    (hreach : Relation.ReflTransGen GStep hwGateInit g) :
    ∀ t ∈ g.inCall, g.holder = some t := by
  induction hreach with
  | refl => intro t ht; cases ht
  | tail hab hbc ih =>
    cases hbc with
    | lock t hfree =>
      intro u hu
      exact absurd (ih u hu) (by simp [hfree])
    | unlock t hheld hempty =>
      intro u hu
      cases hu
    | hwCallStart t hheld =>
      intro u hu
      cases hu with
      | head => exact hheld
      | tail _ hu2 => exact ih u hu2
    | hwCallEnd t hin =>
      intro u hu
      exact ih u (List.mem_of_mem_erase hu)

/-- C8: mutating hardware calls are serialized by hwMutex_: in every
configuration reachable under the locking discipline, any two in-flight
mutating hardware calls belong to the same thread — no two threads'
hardware calls ever overlap. -/
theorem hwMutex_serializes_hw_calls (g : HwGate)
    (hreach : Relation.ReflTransGen GStep hwGateInit g)
    (t1 t2 : Nat) (h1 : t1 ∈ g.inCall) (h2 : t2 ∈ g.inCall) : t1 = t2 := by
  have hinv := hwGate_inCall_held g hreach
  have e1 := hinv t1 h1
  have e2 := hinv t2 h2
  rw [e1] at e2
  exact Option.some_inj.mp e2

theorem hwMutex_serializes_hw_calls_witness :
    (3 : Nat) ∈ (HwGate.mk (some 3) [3]).inCall ∧ (3 : Nat) = 3 :=
  ⟨by simp, hwMutex_serializes_hw_calls (HwGate.mk (some 3) [3])
    (Relation.ReflTransGen.tail
      (Relation.ReflTransGen.tail Relation.ReflTransGen.refl
        (GStep.lock hwGateInit 3 rfl))
      (GStep.hwCallStart (HwGate.mk (some 3) []) 3 rfl))
    3 3 (by simp) (by simp)⟩

/-! ## Boot type -/

/-- BootType as the agent uses it: UNINITIALIZED before startup decides
between a cold and a warm boot. -/
inductive BootType : Type
  | UNINITIALIZED
  | COLD
  | WARM
deriving DecidableEq, Repr, Fintype

/-- The lifecycle-relevant members of SwSwitch: bootType_ carries its
in-class initializer `BootType::UNINITIALIZED` from the header, and
initDone records whether init() has performed its one assignment. -/
structure SwBoot where
  bootType_ : BootType
  runState_ : SwitchRunState
  initDone : Bool
deriving DecidableEq, Repr

/-- A freshly constructed SwSwitch: the in-class initializers from the
header, `bootType_{BootType::UNINITIALIZED}` and
`runState_{SwitchRunState::UNINITIALIZED}`. -/
def mkSwSwitch : SwBoot :=
  { bootType_ := BootType.UNINITIALIZED
  , runState_ := SwitchRunState.UNINITIALIZED
  , initDone := false }

/-- getBootType from SwSwitch.h: `return bootType_;`. -/
def getBootType (sw : SwBoot) : BootType :=
  sw.bootType_

/-- Modelled from the spec: bootType_ is assigned exactly once, during
init() (SwSwitch.cpp is not in the sources); every other operation leaves
it untouched.  Run-state changes are the representative other writes. -/
inductive BootStep : SwBoot → SwBoot → Prop
  | initAssign (sw : SwBoot) (bt : BootType) : sw.initDone = false →
      BootStep sw
        { bootType_ := bt
        , runState_ := SwitchRunState.INITIALIZED
        , initDone := true }
  | setRunStateStep (sw : SwBoot) (d : SwitchRunState) :
      BootStep sw { sw with runState_ := setSwitchRunState d sw.runState_ }

/-- C9: before init() has run its assignment, getBootType() returns
BootType::UNINITIALIZED: the member is default-initialized to
UNINITIALIZED at construction and only init() assigns it, so every
reachable configuration in which init() has not yet happened still reads
UNINITIALIZED. -/
theorem getBootType_uninitialized_before_init (sw : SwBoot)
    (hreach : Relation.ReflTransGen BootStep mkSwSwitch sw)
    (hpre : sw.initDone = false) :
    getBootType sw = BootType.UNINITIALIZED := by
  induction hreach with
  | refl => rfl
  | tail hab hbc ih =>
    cases hbc with
    | initAssign bt hb =>
      simp at hpre
    | setRunStateStep d =>
      exact ih hpre

theorem getBootType_uninitialized_before_init_witness :
    mkSwSwitch.initDone = false ∧ getBootType mkSwSwitch = BootType.UNINITIALIZED :=
  ⟨rfl, getBootType_uninitialized_before_init mkSwSwitch
    Relation.ReflTransGen.refl rfl⟩

/-! ## The portStats overloads -/

/-- A unique_ptr as the overload sees it: get() returns the raw pointee. -/
structure UniquePtr (α : Type) where
  get : α

/-- From the source (SwSwitch.h, inline): the smart-pointer overload
`portStats(const std::unique_ptr<RxPacket>& pkt)` has the single-statement
body `return portStats(pkt.get());` — it delegates to the raw-pointer
overload, whatever that overload computes. -/
def portStatsOfUniquePtr {R P : Type} (portStatsRaw : R → P)
    (pkt : UniquePtr R) : P :=
  portStatsRaw pkt.get

/-- C10: for every packet and every behavior of the raw-pointer overload,
the smart-pointer overload of portStats returns exactly the raw-pointer
overload applied to pkt.get(), with no additional behavior. -/
theorem portStats_unique_ptr_delegates {R P : Type} (raw : R → P)
    (pkt : UniquePtr R) :
    portStatsOfUniquePtr raw pkt = raw pkt.get :=
  rfl

end FbossSw
